import Mathlib

/-!
Shallow embedding of the command-execution runner of the py-gpt repository
(`src/pygpt_net/plugin/cmd_code_interpreter/runner.py`).

The runner executes code snippets, code files and shell commands either on the
host machine (via a spawned subprocess) or inside a docker sandbox.  The
embedding models:

* the plugin configuration read by the runner (`sandbox_docker` flag,
  `python_cmd_tpl` command template, user-data directory),
* the filesystem as an association list from path to file content,
* the observable side effects (signal emissions, file writes, process /
  container spawns) as an explicit trace of `Effect`s,
* the external world (what a spawned process or a docker container would
  produce on its output streams) as oracle functions,
* uncaught Python exceptions as the `RunOutcome.exn` constructor carrying the
  filesystem and the effect trace at the point where the exception is raised.

Captured stream contents are byte lists (`List Nat`, each entry a byte value);
`utf8Decode` models Python's strict `bytes.decode("utf-8")`, returning `none`
where Python raises `UnicodeDecodeError`.
-/

namespace PyGptRunner

/-- Filesystem model: association list from absolute or relative path strings
to file contents.  Paths are compared literally, as Python's `open` does on
the strings the runner produces. -/
abbrev FS := List (String × String)

/-- Read a file: content of the first entry whose path equals `p`. -/
def fsRead : FS → String → Option String
  | [], _ => none
  | (k, v) :: rest, p => if k = p then some v else fsRead rest p

/-- Write a file with truncation (Python `open(p, "w")` followed by
`write(v)`), creating it when absent. -/
def fsWrite : FS → String → String → FS
  | [], p, v => [(p, v)]
  | (k, w) :: rest, p, v => if k = p then (p, v) :: rest else (k, w) :: fsWrite rest p v

/-- Model of Python `os.path.isfile`: the path names an existing file. -/
def isfile (fs : FS) (p : String) : Bool := (fsRead fs p).isSome

/-- Plugin configuration values the runner reads per call. -/
structure Plugin where
  /-- option `sandbox_docker`: execute in the docker sandbox instead of the host -/
  sandbox_docker : Bool
  /-- option `python_cmd_tpl`: command template with one `{filename}` slot -/
  python_cmd_tpl : String
  /-- `plugin.window.core.config.get_user_dir('data')` -/
  data_dir : String
deriving DecidableEq, Repr

/-- Observable side effects of a runner call, in emission order. -/
inductive Effect where
  /-- `signals.output.emit(data, kind)`; `send_interpreter_input` emits with
  kind `"stdin"`, `send_interpreter_output` with the given stream kind. -/
  | output (data : String) (kind : String)
  /-- `signals.log.emit(msg)` with the message already formatted by `log`. -/
  | log (msg : String)
  /-- a host subprocess was spawned with `subprocess.Popen(cmd, shell=True)` -/
  | spawn (cmd : String)
  /-- a docker container was run with entry command `cmd` -/
  | docker (cmd : String)
  /-- a file at `path` was opened for writing and `data` was written to it -/
  | fwrite (path : String) (data : String)
deriving DecidableEq, Repr

/-- Model of `Runner.log`: the emitted message is the sandbox marker (when in
sandbox mode), a space, and the message. -/
def log_message (sandbox : Bool) (msg : String) : String :=
  (if sandbox then "[DOCKER]" else "") ++ " " ++ msg

/-- Continuation byte test for UTF-8 decoding. -/
def utf8Cont (b : Nat) : Bool := 0x80 ≤ b && b ≤ 0xBF

/-- Strict UTF-8 decoder over byte lists, modelling Python
`bytes.decode("utf-8")`: rejects truncated sequences, stray continuation
bytes, overlong encodings and surrogate code points, exactly as CPython's
strict codec does.  Returns the decoded characters, or `none` where Python
raises `UnicodeDecodeError`. -/
def utf8DecodeList : List Nat → Option (List Char)
  | [] => some []
  | b :: rest =>
    if b ≤ 0x7F then
      (utf8DecodeList rest).map (fun cs => Char.ofNat b :: cs)
    else if 0xC2 ≤ b && b ≤ 0xDF then
      match rest with
      | b1 :: rest2 =>
        if utf8Cont b1 then
          (utf8DecodeList rest2).map
            (fun cs => Char.ofNat ((b - 0xC0) * 0x40 + (b1 - 0x80)) :: cs)
        else none
      | [] => none
    else if 0xE0 ≤ b && b ≤ 0xEF then
      match rest with
      | b1 :: b2 :: rest3 =>
        if (if b = 0xE0 then decide (0xA0 ≤ b1) && decide (b1 ≤ 0xBF)
            else if b = 0xED then decide (0x80 ≤ b1) && decide (b1 ≤ 0x9F)
            else utf8Cont b1) && utf8Cont b2 then
          (utf8DecodeList rest3).map
            (fun cs =>
              Char.ofNat ((b - 0xE0) * 0x1000 + (b1 - 0x80) * 0x40 + (b2 - 0x80)) :: cs)
        else none
      | _ => none
    else if 0xF0 ≤ b && b ≤ 0xF4 then
      match rest with
      | b1 :: b2 :: b3 :: rest4 =>
        if (if b = 0xF0 then decide (0x90 ≤ b1) && decide (b1 ≤ 0xBF)
            else if b = 0xF4 then decide (0x80 ≤ b1) && decide (b1 ≤ 0x8F)
            else utf8Cont b1) && utf8Cont b2 && utf8Cont b3 then
          (utf8DecodeList rest4).map
            (fun cs =>
              Char.ofNat
                ((b - 0xF0) * 0x40000 + (b1 - 0x80) * 0x1000 + (b2 - 0x80) * 0x40
                  + (b3 - 0x80)) :: cs)
        else none
      | _ => none
    else none

/-- Decode a byte list to a string, or `none` on a `UnicodeDecodeError`. -/
def utf8Decode (bs : List Nat) : Option String :=
  (utf8DecodeList bs).map (fun cs => String.mk cs)

/-- The fixed sentinel produced by `handle_result` when both captured streams
are empty. -/
def sentinel : String := "No result (STDOUT/STDERR empty)"

/-- Model of `Runner.handle_result(stdout, stderr)`.  Python tests each bytes
object for truthiness (non-emptiness), decodes it strictly as UTF-8, emits it
on the output channel tagged by stream kind and logs it; the last-populated
stream becomes the result, and when both are empty the result is the fixed
sentinel.  Returns the effects emitted before any decode error together with
`some result`, or `none` in place of the result when a decode raises. -/
def handle_result (stdout stderr : List Nat) : List Effect × Option String :=
  if stdout = [] then
    if stderr = [] then
      ([Effect.log (log_message false sentinel)], some sentinel)
    else
      match utf8Decode stderr with
      | none => ([], none)
      | some s =>
        ([Effect.output s "stderr", Effect.log (log_message false ("STDERR: " ++ s))], some s)
  else
    match utf8Decode stdout with
    | none => ([], none)
    | some s =>
      let e1 := [Effect.output s "stdout", Effect.log (log_message false ("STDOUT: " ++ s))]
      if stderr = [] then (e1, some s)
      else
        match utf8Decode stderr with
        | none => (e1, none)
        | some t =>
          (e1 ++ [Effect.output t "stderr", Effect.log (log_message false ("STDERR: " ++ t))],
            some t)

/-- Model of `Runner.handle_result_docker(response)`: decode the combined
container output, emit it tagged `"stdout"` unconditionally, log it with the
sandbox marker. -/
def handle_result_docker (response : List Nat) : List Effect × Option String :=
  match utf8Decode response with
  | none => ([], none)
  | some result =>
    ([Effect.output result "stdout",
      Effect.log (log_message true ("Result: " ++ result))], some result)

/-- Fixed name of the current-snippet file (`Runner.file_current`). -/
def file_current : String := "_interpreter.current.py"

/-- Fixed name of the transcript file (`Runner.file_input`). -/
def file_input : String := "_interpreter.input.py"

/-- Character-list prefix test (executable model of `str.startswith`). -/
def list_starts_with : List Char → List Char → Bool
  | _, [] => true
  | [], _ :: _ => false
  | c :: cs, d :: ds => c = d && list_starts_with cs ds

/-- String prefix test over the underlying character lists. -/
def str_starts_with (s pre : String) : Bool := list_starts_with s.data pre.data

/-- String suffix test over the underlying character lists. -/
def str_ends_with (s suf : String) : Bool :=
  list_starts_with s.data.reverse suf.data.reverse

/-- Model of POSIX `os.path.isabs` (`Runner.is_absolute_path`). -/
def is_absolute_path (path : String) : Bool := str_starts_with path "/"

/-- Model of POSIX `os.path.join` for two components: an absolute second
component wins; otherwise the components are concatenated, inserting a slash
unless the first is empty or already ends in one. -/
def os_path_join (a b : String) : String :=
  if str_starts_with b "/" then b
  else if a = "" || str_ends_with a "/" then a ++ b
  else a ++ "/" ++ b

/-- Model of `Runner.prepare_path`: absolute paths are returned verbatim;
relative paths are joined onto the user-data directory in host mode and left
unchanged in sandbox mode. -/
def prepare_path (plugin : Plugin) (path : String) : String :=
  if is_absolute_path path then path
  else
    if plugin.sandbox_docker = false then os_path_join plugin.data_dir path
    else path

/-- Replace every occurrence of the non-empty pattern `pat` by `repl`,
scanning left to right without overlap.  The `fuel` argument makes the
recursion structural; each step consumes at least one character, so fuel
equal to the input length is enough. -/
def replace_chars (pat repl : List Char) : Nat → List Char → List Char
  | 0, l => l
  | _ + 1, [] => []
  | fuel + 1, c :: cs =>
    if pat ≠ [] ∧ list_starts_with (c :: cs) pat = true then
      repl ++ replace_chars pat repl fuel (List.drop (pat.length - 1) cs)
    else
      c :: replace_chars pat repl fuel cs

/-- Model of `python_cmd_tpl.format(filename=path)`: substitute the path into
each `{filename}` slot of the command template. -/
def format_filename (tpl path : String) : String :=
  String.mk (replace_chars "{filename}".data path.data tpl.data.length tpl.data)

/-- Model of `Runner.append_input(data)`: read the transcript file (empty
content when absent), then open it for appending and write the newline-joined
data (`"\n" + data` when the previous content was non-empty, bare `data`
otherwise, the empty string when `data` is empty — the `open` still creates
the file).  Returns the new filesystem and the write effect. -/
def append_input (plugin : Plugin) (fs : FS) (data : String) : FS × List Effect :=
  let path := prepare_path plugin file_input
  let content := (fsRead fs path).getD ""
  let nl := if content ≠ "" then "\n" else ""
  let written := if data ≠ "" then nl ++ data else ""
  (fsWrite fs path (content ++ written), [Effect.fwrite path written])

/-- The result envelope returned by the runner operations: the echoed request,
the textual result, and the optional `context` key (absent in the soft
file-not-found envelope, mirrored from `result` otherwise). -/
structure Envelope where
  request : String
  result : String
  context : Option String
deriving DecidableEq, Repr

/-- Outcome of a runner call: a returned envelope, or an uncaught Python
exception (`exn`), in both cases with the filesystem and effect trace at the
point of return or raise. -/
inductive RunOutcome where
  | ok (env : Envelope) (fs : FS) (effects : List Effect)
  | exn (fs : FS) (effects : List Effect)
deriving DecidableEq, Repr

/-- Filesystem component of an outcome. -/
def RunOutcome.fsOf : RunOutcome → FS
  | .ok _ fs _ => fs
  | .exn fs _ => fs

/-- Effect-trace component of an outcome. -/
def RunOutcome.effectsOf : RunOutcome → List Effect
  | .ok _ _ eff => eff
  | .exn _ eff => eff

/-- An outcome's returned envelope, when it returned one, mirrors its result
into `context`. -/
def RunOutcome.ctx_ok : RunOutcome → Prop
  | .ok env _ _ => env.context = some env.result
  | .exn _ _ => True

/-- Oracles for the external world: what a host subprocess writes on
(stdout, stderr) for a given shell command, and the combined output bytes of
a docker container run with a given entry command. -/
structure World where
  exec : String → List Nat × List Nat
  docker : String → List Nat

/-- Common tail of the host operations: spawn the subprocess, wait, and feed
the captured streams to `handle_result`; a decode error there escapes as an
uncaught exception. -/
def run_host_tail (w : World) (fs : FS) (effects : List Effect)
    (request cmd : String) : RunOutcome :=
  let streams := w.exec cmd
  let hr := handle_result streams.1 streams.2
  let effects2 := effects ++ [Effect.spawn cmd] ++ hr.1
  match hr.2 with
  | none => .exn fs effects2
  | some result => .ok ⟨request, result, some result⟩ fs effects2

/-- Common tail of the sandbox operations: run the docker container and feed
the combined response to `handle_result_docker`. -/
def run_docker_tail (w : World) (fs : FS) (effects : List Effect)
    (request cmd : String) : RunOutcome :=
  let response := w.docker cmd
  let hr := handle_result_docker response
  let effects2 := effects ++ [Effect.docker cmd] ++ hr.1
  match hr.2 with
  | none => .exn fs effects2
  | some result => .ok ⟨request, result, some result⟩ fs effects2

/-- Model of `Runner.code_execute_file_host`: log, resolve the path, return
the soft `"File not found"` envelope (with no `context` key) when the
resolved path names no file; otherwise read the file, append its text to the
transcript, echo it on the input channel, format the command template and run
it on the host. -/
def code_execute_file_host (plugin : Plugin) (w : World) (fs : FS)
    (request pathParam : String) : RunOutcome :=
  let eff0 := [Effect.log (log_message false ("Executing Python file: " ++ pathParam))]
  let path := prepare_path plugin pathParam
  if isfile fs path = false then
    .ok ⟨request, "File not found", none⟩ fs eff0
  else
    match fsRead fs path with
    | none => .exn fs eff0
    | some code =>
      let ap := append_input plugin fs code
      let eff1 := eff0 ++ ap.2 ++ [Effect.output code "stdin"]
      let cmd := format_filename plugin.python_cmd_tpl path
      let eff2 := eff1 ++ [Effect.log (log_message false ("Running command: " ++ cmd))]
      run_host_tail w ap.1 eff2 request cmd

/-- Model of `Runner.code_execute_host`: unless `all`, write the code to the
explicit path when given, else to the fixed current-snippet file, resolved by
`prepare_path`, with truncation; when `all`, target the transcript file
instead.  Then append the code to the transcript, echo it on the input
channel, and run the formatted command on the host. -/
def code_execute_host (plugin : Plugin) (w : World) (fs : FS)
    (request code : String) (pathParam : Option String) (all : Bool) : RunOutcome :=
  if all = false then
    let path0 := pathParam.getD file_current
    let path := prepare_path plugin path0
    let fs1 := fsWrite fs path code
    let eff1 := [Effect.log (log_message false ("Saving Python file: " ++ path0)),
                 Effect.fwrite path code]
    let ap := append_input plugin fs1 code
    let eff2 := eff1 ++ ap.2 ++ [Effect.output code "stdin"]
    let cmd := format_filename plugin.python_cmd_tpl path
    let eff3 := eff2 ++ [Effect.log (log_message false ("Running command: " ++ cmd))]
    run_host_tail w ap.1 eff3 request cmd
  else
    let path := prepare_path plugin file_input
    let ap := append_input plugin fs code
    let eff2 := ap.2 ++ [Effect.output code "stdin"]
    let cmd := format_filename plugin.python_cmd_tpl path
    let eff3 := eff2 ++ [Effect.log (log_message false ("Running command: " ++ cmd))]
    run_host_tail w ap.1 eff3 request cmd

/-- Model of `Runner.code_execute_sandbox`: as `code_execute_host`, but the
snippet write path is NOT passed through `prepare_path` (the source opens the
raw `path` directly), logs carry the sandbox marker, and the command runs in
a docker container. -/
def code_execute_sandbox (plugin : Plugin) (w : World) (fs : FS)
    (request code : String) (pathParam : Option String) (all : Bool) : RunOutcome :=
  if all = false then
    let path := pathParam.getD file_current
    let fs1 := fsWrite fs path code
    let eff1 := [Effect.log (log_message true ("Saving Python file: " ++ path)),
                 Effect.fwrite path code]
    let ap := append_input plugin fs1 code
    let eff2 := eff1 ++ ap.2 ++ [Effect.output code "stdin"]
    let eff3 := eff2 ++ [Effect.log (log_message true ("Executing Python code: " ++ code))]
    let cmd := format_filename plugin.python_cmd_tpl path
    let eff4 := eff3 ++ [Effect.log (log_message true ("Running command: " ++ cmd))]
    run_docker_tail w ap.1 eff4 request cmd
  else
    let path := prepare_path plugin file_input
    let ap := append_input plugin fs code
    let eff2 := ap.2 ++ [Effect.output code "stdin"]
    let eff3 := eff2 ++ [Effect.log (log_message true ("Executing Python code: " ++ code))]
    let cmd := format_filename plugin.python_cmd_tpl path
    let eff4 := eff3 ++ [Effect.log (log_message true ("Running command: " ++ cmd))]
    run_docker_tail w ap.1 eff4 request cmd

/-- Model of `Runner.sys_exec_host`: log twice, then run the raw shell
command on the host with no file writing and no transcript append. -/
def sys_exec_host (_plugin : Plugin) (w : World) (fs : FS)
    (request command : String) : RunOutcome :=
  let eff := [Effect.log (log_message false ("Executing system command: " ++ command)),
              Effect.log (log_message false ("Running command: " ++ command))]
  run_host_tail w fs eff request command

/-- Model of `Runner.sys_exec_sandbox`: log twice with the sandbox marker,
then run the raw shell command in a docker container; no file writing and no
transcript append. -/
def sys_exec_sandbox (_plugin : Plugin) (w : World) (fs : FS)
    (request command : String) : RunOutcome :=
  let eff := [Effect.log (log_message true ("Executing system command: " ++ command)),
              Effect.log (log_message true ("Running command: " ++ command))]
  run_docker_tail w fs eff request command

/-- Newline-join of a previous file content with new data: no newline prefix
when the previous content is empty. -/
def nl_join (content data : String) : String :=
  if content = "" then data else content ++ "\n" ++ data

/-- Concrete host-mode plugin configuration used by witnesses. -/
def pluginHost : Plugin := ⟨false, "python3 {filename}", "/data"⟩

/-- Concrete sandbox-mode plugin configuration used by witnesses. -/
def pluginSand : Plugin := ⟨true, "python3 {filename}", "/data"⟩

/-- Concrete world oracle: every host command prints `"x"` on stdout and
nothing on stderr; every container run outputs `"hi"`. -/
def worldX : World := ⟨fun _ => ([120], []), fun _ => [104, 105]⟩

/-- Concrete filesystem holding a transcript with content `"OLD"` at its
host-resolved path. -/
def fsOld : FS := [("/data/_interpreter.input.py", "OLD")]

theorem str_empty_append (s : String) : "" ++ s = s :=
  String.ext (List.nil_append s.data)

theorem str_append_assoc (a b c : String) : a ++ b ++ c = a ++ (b ++ c) :=
  String.ext (by simp [String.data_append, List.append_assoc])

theorem fsRead_fsWrite_self (fs : FS) (p v : String) :
    fsRead (fsWrite fs p v) p = some v := by
  induction fs with
  | nil => simp [fsWrite, fsRead]
  | cons kv rest ih =>
    obtain ⟨k, w⟩ := kv
    by_cases h : k = p
    · simp [fsWrite, fsRead, h]
    · simp [fsWrite, fsRead, h, ih]

theorem fsRead_fsWrite_ne (fs : FS) {p q : String} (h : p ≠ q) (v : String) :
    fsRead (fsWrite fs p v) q = fsRead fs q := by
  induction fs with
  | nil => simp [fsWrite, fsRead, h]
  | cons kv rest ih =>
    obtain ⟨k, w⟩ := kv
    by_cases hk : k = p
    · subst hk
      simp [fsWrite, fsRead, h]
    · simp [fsWrite, fsRead, hk, ih]

theorem fsOf_run_host_tail (w : World) (fs : FS) (eff : List Effect)
    (request cmd : String) : (run_host_tail w fs eff request cmd).fsOf = fs := by
  simp only [run_host_tail]
  split <;> rfl

theorem fsOf_run_docker_tail (w : World) (fs : FS) (eff : List Effect)
    (request cmd : String) : (run_docker_tail w fs eff request cmd).fsOf = fs := by
  simp only [run_docker_tail]
  split <;> rfl

theorem effectsOf_run_host_tail (w : World) (fs : FS) (eff : List Effect)
    (request cmd : String) :
    (run_host_tail w fs eff request cmd).effectsOf =
      eff ++ [Effect.spawn cmd] ++ (handle_result (w.exec cmd).1 (w.exec cmd).2).1 := by
  simp only [run_host_tail]
  split <;> rfl

theorem effectsOf_run_docker_tail (w : World) (fs : FS) (eff : List Effect)
    (request cmd : String) :
    (run_docker_tail w fs eff request cmd).effectsOf =
      eff ++ [Effect.docker cmd] ++ (handle_result_docker (w.docker cmd)).1 := by
  simp only [run_docker_tail]
  split <;> rfl

theorem handle_result_no_fwrite (stdout stderr : List Nat) (p c : String) :
    Effect.fwrite p c ∉ (handle_result stdout stderr).1 := by
  simp only [handle_result]
  split
  · split
    · simp
    · split <;> simp
  · split
    · simp
    · split
      · simp
      · split <;> simp

theorem handle_result_docker_no_fwrite (response : List Nat) (p c : String) :
    Effect.fwrite p c ∉ (handle_result_docker response).1 := by
  simp only [handle_result_docker]
  split <;> simp

theorem prepare_path_host (plugin : Plugin) (hs : plugin.sandbox_docker = false)
    {p : String} (hp : is_absolute_path p = false) :
    prepare_path plugin p = os_path_join plugin.data_dir p := by
  simp [prepare_path, hp, hs]

theorem prepare_path_sandbox (plugin : Plugin) (hs : plugin.sandbox_docker = true)
    {p : String} (hp : is_absolute_path p = false) :
    prepare_path plugin p = p := by
  simp [prepare_path, hp, hs]

theorem prepare_path_current_ne_input (plugin : Plugin) :
    prepare_path plugin file_current ≠ prepare_path plugin file_input := by
  have hc : is_absolute_path file_current = false := by decide
  have hi : is_absolute_path file_input = false := by decide
  have l1 : file_current.length = 23 := by decide
  have l2 : file_input.length = 21 := by decide
  by_cases hs : plugin.sandbox_docker = false
  · rw [prepare_path_host plugin hs hc, prepare_path_host plugin hs hi]
    have hbc : str_starts_with file_current "/" = false := by decide
    have hbi : str_starts_with file_input "/" = false := by decide
    intro h
    simp only [os_path_join, hbc, hbi, Bool.false_eq_true, if_false] at h
    by_cases hd : (decide (plugin.data_dir = "") || str_ends_with plugin.data_dir "/") = true
    · rw [if_pos hd, if_pos hd] at h
      have hlen := congrArg String.length h
      simp only [String.length_append] at hlen
      omega
    · rw [if_neg hd, if_neg hd] at h
      have hlen := congrArg String.length h
      simp only [String.length_append] at hlen
      omega
  · have hs' : plugin.sandbox_docker = true := by
      cases hq : plugin.sandbox_docker
      · exact absurd hq hs
      · rfl
    rw [prepare_path_sandbox plugin hs' hc, prepare_path_sandbox plugin hs' hi]
    decide

theorem append_input_fs (plugin : Plugin) (fs : FS) (data : String) (hd : data ≠ "") :
    fsRead (append_input plugin fs data).1 (prepare_path plugin file_input) =
      some (nl_join ((fsRead fs (prepare_path plugin file_input)).getD "") data) := by
  simp only [append_input]
  rw [fsRead_fsWrite_self]
  congr 1
  by_cases hcon : (fsRead fs (prepare_path plugin file_input)).getD "" = ""
  · simp [nl_join, hcon, hd, str_empty_append]
  · simp [nl_join, hcon, hd, str_append_assoc]

theorem append_input_fs_ne (plugin : Plugin) (fs : FS) (data : String)
    {q : String} (h : prepare_path plugin file_input ≠ q) :
    fsRead (append_input plugin fs data).1 q = fsRead fs q := by
  simp only [append_input]
  exact fsRead_fsWrite_ne fs h _

/-- Concrete filesystem holding a Python file at its host-resolved path. -/
def fsWithFile : FS := [("/data/a.py", "print(3)")]

/-- Claim C1: for every call of `code_execute_file_host` with a path that,
after resolution by `prepare_path`, does not name an existing file, the call
returns (rather than raising) an envelope whose result field equals the
string `"File not found"`; the filesystem is untouched and only the initial
log line has been emitted. -/
theorem C1_file_not_found (plugin : Plugin) (w : World) (fs : FS)
    (request pathParam : String)
    (h : isfile fs (prepare_path plugin pathParam) = false) :
    code_execute_file_host plugin w fs request pathParam =
      .ok ⟨request, "File not found", none⟩ fs
        [Effect.log (log_message false ("Executing Python file: " ++ pathParam))] := by
  simp [code_execute_file_host, h]

/-- Witness for C1 at a concrete missing file. -/
theorem C1_file_not_found_witness :
    isfile ([] : FS) (prepare_path pluginHost "nope.py") = false ∧
    code_execute_file_host pluginHost worldX [] "req" "nope.py" =
      .ok ⟨"req", "File not found", none⟩ []
        [Effect.log (log_message false ("Executing Python file: " ++ "nope.py"))] :=
  ⟨rfl, C1_file_not_found pluginHost worldX [] "req" "nope.py" rfl⟩

/-- Claim C3: in `handle_result`, a decodable non-empty stdout with empty
stderr yields that stdout text as the result; an empty stdout with decodable
non-empty stderr yields the stderr text; when both streams are non-empty the
stderr text (the last-populated stream) wins; and when both are empty the
result is the fixed sentinel. -/
theorem C3_handle_result (stdout stderr : List Nat) (x e : String) :
    (stdout ≠ [] → utf8Decode stdout = some x → stderr = [] →
      (handle_result stdout stderr).2 = some x) ∧
    (stdout = [] → stderr ≠ [] → utf8Decode stderr = some e →
      (handle_result stdout stderr).2 = some e) ∧
    (stdout ≠ [] → stderr ≠ [] → utf8Decode stdout = some x →
      utf8Decode stderr = some e → (handle_result stdout stderr).2 = some e) ∧
    (stdout = [] → stderr = [] → (handle_result stdout stderr).2 = some sentinel) := by
  refine ⟨?_, ?_, ?_, ?_⟩
  · intro h1 h2 h3
    simp [handle_result, h1, h2, h3]
  · intro h1 h2 h3
    simp [handle_result, h1, h2, h3]
  · intro h1 h2 h3 h4
    simp [handle_result, h1, h2, h3, h4]
  · intro h1 h2
    simp [handle_result, h1, h2]

/-- Witness for C3 with stdout bytes of `"x"` and stderr bytes of `"e"`. -/
theorem C3_handle_result_witness :
    (handle_result [120] []).2 = some "x" ∧
    (handle_result [] [101]).2 = some "e" ∧
    (handle_result [120] [101]).2 = some "e" ∧
    (handle_result [] []).2 = some sentinel :=
  ⟨(C3_handle_result [120] [] "x" "e").1 (by decide) (by decide) rfl,
   (C3_handle_result [] [101] "x" "e").2.1 rfl (by decide) (by decide),
   (C3_handle_result [120] [101] "x" "e").2.2.1 (by decide) (by decide) (by decide)
     (by decide),
   (C3_handle_result [] [] "x" "e").2.2.2 rfl rfl⟩

/-- Counterexample to C4 as stated: the sentinel produced on two empty
streams is `"No result (STDOUT/STDERR empty)"`, not the claimed exact string
`"No result (stdout/stderr empty)"`; and on a non-UTF-8 stream (byte 255)
nothing is absorbed into a sentinel — the decode failure propagates (the
result position is the exception marker `none`). -/
theorem C4_counterexample :
    (handle_result [] []).2 = some "No result (STDOUT/STDERR empty)" ∧
    ("No result (STDOUT/STDERR empty)" : String) ≠ "No result (stdout/stderr empty)" ∧
    utf8Decode [255] = none ∧
    (handle_result [255] []).2 = none := by
  exact ⟨by decide, by decide, by decide, by decide⟩

/-- Claim C4 amended: only when both captured streams are empty does
`handle_result` return the fixed sentinel — exactly
`"No result (STDOUT/STDERR empty)"`; when UTF-8 decoding of a non-empty
stream fails, no sentinel is produced and the failure propagates as an
uncaught exception. -/
theorem C4_decode_and_empty (stdout stderr : List Nat) :
    (stdout = [] → stderr = [] →
      (handle_result stdout stderr).2 = some "No result (STDOUT/STDERR empty)") ∧
    (stdout ≠ [] → utf8Decode stdout = none → (handle_result stdout stderr).2 = none) ∧
    (stdout = [] → stderr ≠ [] → utf8Decode stderr = none →
      (handle_result stdout stderr).2 = none) ∧
    (∀ x, stdout ≠ [] → utf8Decode stdout = some x → stderr ≠ [] →
      utf8Decode stderr = none → (handle_result stdout stderr).2 = none) := by
  refine ⟨?_, ?_, ?_, ?_⟩
  · intro h1 h2
    simp [handle_result, h1, h2, sentinel]
  · intro h1 h2
    simp [handle_result, h1, h2]
  · intro h1 h2 h3
    simp [handle_result, h1, h2, h3]
  · intro x h1 h2 h3 h4
    simp [handle_result, h1, h2, h3, h4]

/-- Witness for the amended C4 at concrete byte streams. -/
theorem C4_decode_and_empty_witness :
    (handle_result [] []).2 = some "No result (STDOUT/STDERR empty)" ∧
    (handle_result [255] [101]).2 = none ∧
    (handle_result [] [255]).2 = none ∧
    (handle_result [120] [255]).2 = none :=
  ⟨(C4_decode_and_empty [] []).1 rfl rfl,
   (C4_decode_and_empty [255] [101]).2.1 (by decide) (by decide),
   (C4_decode_and_empty [] [255]).2.2.1 rfl (by decide) (by decide),
   (C4_decode_and_empty [120] [255]).2.2.2 "x" (by decide) (by decide) (by decide)
     (by decide)⟩

/-- Claim C5: `prepare_path` returns an absolute path verbatim in both modes;
a relative path is joined onto the configured user-data directory in host
mode (in the usual case producing `data_dir ++ "/" ++ path`), and is
returned unchanged in sandbox mode. -/
theorem C5_prepare_path (plugin : Plugin) (path : String) :
    (is_absolute_path path = true → prepare_path plugin path = path) ∧
    (is_absolute_path path = false → plugin.sandbox_docker = false →
      prepare_path plugin path = os_path_join plugin.data_dir path) ∧
    (is_absolute_path path = false → plugin.sandbox_docker = true →
      prepare_path plugin path = path) ∧
    (is_absolute_path path = false → plugin.sandbox_docker = false →
      plugin.data_dir ≠ "" → str_ends_with plugin.data_dir "/" = false →
      prepare_path plugin path = plugin.data_dir ++ "/" ++ path) := by
  refine ⟨?_, ?_, ?_, ?_⟩
  · intro h
    simp [prepare_path, h]
  · intro h hs
    exact prepare_path_host plugin hs h
  · intro h hs
    exact prepare_path_sandbox plugin hs h
  · intro h hs hd hsl
    rw [prepare_path_host plugin hs h]
    have hb : str_starts_with path "/" = false := h
    simp [os_path_join, hb, hd, hsl]

/-- Witness for C5 at `"a.py"` and `"/abs/a.py"` in both modes. -/
theorem C5_prepare_path_witness :
    prepare_path pluginHost "/abs/a.py" = "/abs/a.py" ∧
    prepare_path pluginHost "a.py" = os_path_join pluginHost.data_dir "a.py" ∧
    prepare_path pluginSand "a.py" = "a.py" ∧
    prepare_path pluginHost "a.py" = "/data" ++ "/" ++ "a.py" :=
  ⟨(C5_prepare_path pluginHost "/abs/a.py").1 (by decide),
   (C5_prepare_path pluginHost "a.py").2.1 (by decide) rfl,
   (C5_prepare_path pluginSand "a.py").2.2.1 (by decide) rfl,
   (C5_prepare_path pluginHost "a.py").2.2.2 (by decide) rfl (by decide) (by decide)⟩

/-- Counterexample to C6 as stated: a `sys_exec_host` call with non-empty
command `"ls"` leaves the filesystem — in particular the transcript file,
whose content stays `"OLD"` — completely unchanged, whereas the claim
demands the transcript be extended with the command text. -/
theorem C6_counterexample :
    (sys_exec_host pluginHost worldX fsOld "req" "ls").fsOf = fsOld ∧
    fsRead fsOld "/data/_interpreter.input.py" = some "OLD" ∧
    ("OLD" : String) ≠ nl_join "OLD" "ls" := by
  exact ⟨by decide, by decide, by decide⟩

/-- Claim C6 amended: the transcript records the code snippets submitted via
the code-execution operations, but NOT shell commands: `sys_exec_host` and
`sys_exec_sandbox` never call `append_input` and leave every file, the
transcript included, unchanged. -/
theorem C6_sys_exec_preserves_files (plugin : Plugin) (w : World) (fs : FS)
    (request command : String) :
    (sys_exec_host plugin w fs request command).fsOf = fs ∧
    (sys_exec_sandbox plugin w fs request command).fsOf = fs := by
  constructor
  · simp only [sys_exec_host]
    exact fsOf_run_host_tail w fs _ request command
  · simp only [sys_exec_sandbox]
    exact fsOf_run_docker_tail w fs _ request command

/-- Counterexample to C2 as stated: calling `code_execute_host` with the
explicit path `"_interpreter.input.py"` — which resolves to the transcript
path itself — first overwrites the transcript with the snippet, so the final
transcript content is `"code\ncode"` rather than the previous content
newline-joined with the snippet (`nl_join "OLD" "code" = "OLD\ncode"`). -/
theorem C2_counterexample :
    fsRead (code_execute_host pluginHost worldX fsOld
        "req" "code" (some "_interpreter.input.py") false).fsOf
        "/data/_interpreter.input.py" = some "code\ncode" ∧
    fsRead fsOld "/data/_interpreter.input.py" = some "OLD" ∧
    ("code\ncode" : String) ≠ nl_join "OLD" "code" := by
  exact ⟨by decide, by decide, by decide⟩

/-- Claim C2 amended: for every non-empty `data`, `code_execute_host` and
`code_execute_sandbox` leave the transcript file holding its previous
content newline-joined with `data` (no newline prefix when it was empty) —
provided that, in the single-snippet case, the snippet write path differs
from the transcript path (an explicit path naming the transcript file first
overwrites it). -/
theorem C2_transcript_append (plugin : Plugin) (w : World) (fs : FS)
    (request data : String) (pathParam : Option String) (all : Bool)
    (hd : data ≠ "") :
    ((all = false → prepare_path plugin (pathParam.getD file_current) ≠
        prepare_path plugin file_input) →
      fsRead (code_execute_host plugin w fs request data pathParam all).fsOf
          (prepare_path plugin file_input) =
        some (nl_join ((fsRead fs (prepare_path plugin file_input)).getD "") data)) ∧
    ((all = false → pathParam.getD file_current ≠ prepare_path plugin file_input) →
      fsRead (code_execute_sandbox plugin w fs request data pathParam all).fsOf
          (prepare_path plugin file_input) =
        some (nl_join ((fsRead fs (prepare_path plugin file_input)).getD "") data)) := by
  constructor
  · intro hw
    cases all with
    | false =>
      simp only [code_execute_host, eq_self_iff_true, if_true]
      rw [fsOf_run_host_tail]
      rw [append_input_fs plugin
        (fsWrite fs (prepare_path plugin (pathParam.getD file_current)) data) data hd]
      rw [fsRead_fsWrite_ne fs (hw rfl) data]
    | true =>
      simp only [code_execute_host, Bool.true_eq_false, if_false]
      rw [fsOf_run_host_tail]
      exact append_input_fs plugin fs data hd
  · intro hw
    cases all with
    | false =>
      simp only [code_execute_sandbox, eq_self_iff_true, if_true]
      rw [fsOf_run_docker_tail]
      rw [append_input_fs plugin
        (fsWrite fs (pathParam.getD file_current) data) data hd]
      rw [fsRead_fsWrite_ne fs (hw rfl) data]
    | true =>
      simp only [code_execute_sandbox, Bool.true_eq_false, if_false]
      rw [fsOf_run_docker_tail]
      exact append_input_fs plugin fs data hd

/-- Witness for the amended C2: executing a snippet in both modes with the
default snippet path extends the transcript by newline-joining. -/
theorem C2_transcript_append_witness :
    fsRead (code_execute_host pluginHost worldX fsOld "req" "code" none false).fsOf
        (prepare_path pluginHost file_input) =
      some (nl_join ((fsRead fsOld (prepare_path pluginHost file_input)).getD "") "code") ∧
    fsRead (code_execute_sandbox pluginSand worldX [] "req" "code" none false).fsOf
        (prepare_path pluginSand file_input) =
      some (nl_join ((fsRead ([] : FS) (prepare_path pluginSand file_input)).getD "") "code") :=
  ⟨(C2_transcript_append pluginHost worldX fsOld "req" "code" none false
      (by decide)).1 (fun _ => by decide),
   (C2_transcript_append pluginSand worldX [] "req" "code" none false
      (by decide)).2 (fun _ => by decide)⟩

/-- Counterexample to C7 as stated: in sandbox mode `code_execute_sandbox`
writes both fixed-name files at their bare relative names (the snippet write
skips `prepare_path` entirely and `prepare_path` leaves relative paths
unchanged in sandbox mode), which are not located under the resolved
user-data directory `"/data"`. -/
theorem C7_counterexample :
    Effect.fwrite "_interpreter.current.py" "print(1)" ∈
      (code_execute_sandbox pluginSand worldX [] "req" "print(1)" none false).effectsOf ∧
    Effect.fwrite "_interpreter.input.py" "print(1)" ∈
      (code_execute_sandbox pluginSand worldX [] "req" "print(1)" none false).effectsOf ∧
    str_starts_with "_interpreter.current.py" pluginSand.data_dir = false ∧
    str_starts_with "_interpreter.input.py" pluginSand.data_dir = false := by
  exact ⟨by decide, by decide, by decide, by decide⟩

/-- Claim C7 amended: in host mode every write of the fixed-name files
targets the user-data-joined path; in sandbox mode the writes target the
bare relative filenames (resolved against the process working directory),
not a path under the user-data directory. -/
theorem C7_write_targets (plugin : Plugin) (w : World) (fs : FS)
    (request data : String) :
    (plugin.sandbox_docker = false →
      ∀ p c, Effect.fwrite p c ∈
          (code_execute_host plugin w fs request data none false).effectsOf →
        p = os_path_join plugin.data_dir file_current ∨
        p = os_path_join plugin.data_dir file_input) ∧
    (plugin.sandbox_docker = true →
      ∀ p c, Effect.fwrite p c ∈
          (code_execute_sandbox plugin w fs request data none false).effectsOf →
        p = file_current ∨ p = file_input) := by
  have hc : is_absolute_path file_current = false := by decide
  have hi : is_absolute_path file_input = false := by decide
  constructor
  · intro hs p c hmem
    simp only [code_execute_host, eq_self_iff_true, if_true, Option.getD_none] at hmem
    rw [effectsOf_run_host_tail] at hmem
    simp [append_input, handle_result_no_fwrite] at hmem
    rcases hmem with ⟨hp, _⟩ | ⟨hp, _⟩
    · left
      rw [hp, prepare_path_host plugin hs hc]
    · right
      rw [hp, prepare_path_host plugin hs hi]
  · intro hs p c hmem
    simp only [code_execute_sandbox, eq_self_iff_true, if_true, Option.getD_none] at hmem
    rw [effectsOf_run_docker_tail] at hmem
    simp [append_input, handle_result_docker_no_fwrite] at hmem
    rcases hmem with ⟨hp, _⟩ | ⟨hp, _⟩
    · left
      exact hp
    · right
      rw [hp, prepare_path_sandbox plugin hs hi]

/-- Witness for the amended C7: the snippet write of a concrete host-mode
execution targets one of the two user-data-joined fixed paths. -/
theorem C7_write_targets_witness :
    "/data/_interpreter.current.py" = os_path_join pluginHost.data_dir file_current ∨
    "/data/_interpreter.current.py" = os_path_join pluginHost.data_dir file_input :=
  (C7_write_targets pluginHost worldX [] "r" "print(1)").1 rfl
    "/data/_interpreter.current.py" "print(1)" (by decide)

/-- Claim C8: after `code_execute_host` with `all = false` and no explicit
path, the fixed current-snippet file (at its `prepare_path`-resolved
location) holds exactly the submitted code — the write truncates, so any
prior content of that file is discarded. -/
theorem C8_current_snippet (plugin : Plugin) (w : World) (fs : FS)
    (request data : String) (_hs : plugin.sandbox_docker = false) :
    fsRead (code_execute_host plugin w fs request data none false).fsOf
        (prepare_path plugin file_current) = some data := by
  simp only [code_execute_host, eq_self_iff_true, if_true, Option.getD_none]
  rw [fsOf_run_host_tail]
  rw [append_input_fs_ne plugin _ data (prepare_path_current_ne_input plugin).symm]
  exact fsRead_fsWrite_self fs _ data

/-- Witness for C8: the current-snippet file holds exactly the submitted
text after a concrete host execution over a filesystem already holding stale
content in that file. -/
theorem C8_current_snippet_witness :
    pluginHost.sandbox_docker = false ∧
    fsRead (code_execute_host pluginHost worldX
        [("/data/_interpreter.current.py", "STALE")] "r" "print(1)" none false).fsOf
        (prepare_path pluginHost file_current) = some "print(1)" :=
  ⟨rfl, C8_current_snippet pluginHost worldX
      [("/data/_interpreter.current.py", "STALE")] "r" "print(1)" rfl⟩

/-- Claim C9: the soft file-not-found envelope of `code_execute_file_host`
carries only the request and result (its `context` field is absent), while
any envelope returned when the file exists mirrors its result into
`context`. -/
theorem C9_envelope_context (plugin : Plugin) (w : World) (fs : FS)
    (request pathParam : String) :
    (isfile fs (prepare_path plugin pathParam) = false →
      code_execute_file_host plugin w fs request pathParam =
        .ok ⟨request, "File not found", none⟩ fs
          [Effect.log (log_message false ("Executing Python file: " ++ pathParam))]) ∧
    (isfile fs (prepare_path plugin pathParam) = true →
      (code_execute_file_host plugin w fs request pathParam).ctx_ok) := by
  constructor
  · intro h
    simp [code_execute_file_host, h]
  · intro h
    simp only [code_execute_file_host, h, Bool.true_eq_false, if_false]
    split
    · exact trivial
    · simp only [run_host_tail]
      split
      · exact trivial
      · simp [RunOutcome.ctx_ok]

/-- Witness for C9 at a missing and at a present file. -/
theorem C9_envelope_context_witness :
    (code_execute_file_host pluginHost worldX [] "r" "nope.py" =
      .ok ⟨"r", "File not found", none⟩ []
        [Effect.log (log_message false ("Executing Python file: " ++ "nope.py"))]) ∧
    (code_execute_file_host pluginHost worldX fsWithFile "r" "a.py").ctx_ok :=
  ⟨(C9_envelope_context pluginHost worldX [] "r" "nope.py").1 rfl,
   (C9_envelope_context pluginHost worldX fsWithFile "r" "a.py").2 (by decide)⟩

/-- Claim C10: when the existence check of `code_execute_file_host` fails,
no observable side effect has occurred: the filesystem (and so the
transcript) is unchanged and the effect trace holds only log emissions — no
input or output notification and no spawned subprocess. -/
theorem C10_soft_failure_no_side_effects (plugin : Plugin) (w : World) (fs : FS)
    (request pathParam : String)
    (h : isfile fs (prepare_path plugin pathParam) = false) :
    (code_execute_file_host plugin w fs request pathParam).fsOf = fs ∧
    ∀ e ∈ (code_execute_file_host plugin w fs request pathParam).effectsOf,
      ∃ m, e = Effect.log m := by
  constructor
  · simp [code_execute_file_host, h, RunOutcome.fsOf]
  · intro e he
    simp [code_execute_file_host, h, RunOutcome.effectsOf] at he
    exact ⟨_, he⟩

/-- Witness for C10 at a concrete missing file: the filesystem comes back
unchanged and the single emitted effect is a log message. -/
theorem C10_soft_failure_no_side_effects_witness :
    (code_execute_file_host pluginHost worldX [] "r" "missing.py").fsOf = [] ∧
    ∃ m, Effect.log (log_message false ("Executing Python file: " ++ "missing.py")) =
      Effect.log m :=
  ⟨(C10_soft_failure_no_side_effects pluginHost worldX [] "r" "missing.py" rfl).1,
   (C10_soft_failure_no_side_effects pluginHost worldX [] "r" "missing.py" rfl).2
     (Effect.log (log_message false ("Executing Python file: " ++ "missing.py")))
     (by decide)⟩

end PyGptRunner
